import Mathlib

/-!
Verification of the mrgc multi-region GPU cluster control plane.

This file gives a shallow embedding of the control-plane core
(state manager, instance registry, regional router, health monitor,
failover handler, autoscaler, metrics collector) and proves properties
of the natural-language specification against it.

Numeric conventions: Python ints are modelled as `ℤ`, Python floats as
`ℚ` (the code only performs exact decimal arithmetic on values that fit
rationals; claims are stated over exact arithmetic), `int(x)` as
truncation toward zero.
-/

namespace Mrgc

/-- Python `int(x)` applied to a number: truncation toward zero. -/
def pyTrunc (q : ℚ) : ℤ := if 0 ≤ q then ⌊q⌋ else ⌈q⌉

/-- Outcome of a Python call that can raise an uncaught
`AttributeError`.  The repository calls several methods that are
defined nowhere (`InstanceRegistry.get_instances_by_region_and_model`,
`InstanceRegistry.update_health`, `StateManager.get_autoscaling_state`,
`StateManager.update_autoscaling_state`, `StateManager.list_gpu_instances`,
`StateManager.delete_gpu_instance`) and calls `.get` on a value stored
as a JSON string; each such call raises `AttributeError`
unconditionally, which this type makes explicit. -/
inductive PyResult (α : Type) where
  | ok (a : α)
  | attributeError
deriving DecidableEq, Repr

namespace StateManager

/-- One row of the `mrgc-gpu-instances` DynamoDB table, as written by
`StateManager.register_instance` (state_manager.py).  The `metadata`
dict is modelled as an association list of string keys to string
values (the source serialises it with `json.dumps`). -/
structure InstanceItem where
  instance_id : String
  region : String
  model_pool : String
  state : String
  queue_depth : ℤ
  last_heartbeat : ℤ
  launch_time : ℤ
  ip_address : String
  subnet_id : String
  availability_zone : String
  metadata : List (String × String)
  ttl : ℤ
deriving DecidableEq, Repr

/-- The gpu-instances table: a keyed store on the primary key
`instance_id`. -/
def InstTable : Type := String → Option InstanceItem

/-- `StateManager.register_instance` (state_manager.py lines 43-91):
an unconditional `put_item` of a fresh row in state `"launching"`;
on the success path it returns `True`.  There is no condition
expression, so an existing row with the same `instance_id` is
overwritten. -/
def register_instance (tbl : InstTable)
    (instance_id region model_pool ip_address subnet_id availability_zone : String)
    (metadata : List (String × String)) (now : ℤ) : InstTable × Bool :=
  (fun k => if k = instance_id then
      some { instance_id := instance_id, region := region, model_pool := model_pool,
             state := "launching", queue_depth := 0, last_heartbeat := now,
             launch_time := now, ip_address := ip_address, subnet_id := subnet_id,
             availability_zone := availability_zone, metadata := metadata,
             ttl := now + 604800 }
    else tbl k, true)

/-- `StateManager.heartbeat` (state_manager.py lines 136-160):
`update_item` with `SET last_heartbeat = :heartbeat, queue_depth =
:queue_depth`; no other attribute appears in the update expression.
We model its effect on registered rows (for an absent key DynamoDB
would create a partial item outside this typed row model; the claims
quantify over registered instances). -/
def heartbeat (tbl : InstTable) (instance_id : String) (queue_depth now : ℤ) :
    InstTable × Bool :=
  (fun k => if k = instance_id then
      match tbl instance_id with
      | some r => some { r with last_heartbeat := now, queue_depth := queue_depth }
      | none => tbl k
    else tbl k, true)

/-- One row of the `mrgc-routing-state` DynamoDB table, as written by
`StateManager.update_routing_state`. -/
structure RoutingItem where
  instance_id : String
  region : String
  routing_score : ℤ
  queue_depth : ℤ
  avg_latency_ms : ℤ
  health_status : String
  last_updated : ℤ
  subnet_cidr : String
  ttl : ℤ
deriving DecidableEq, Repr

/-- The routing-state table keyed on `instance_id`. -/
def RoutingTable : Type := String → Option RoutingItem

/-- `StateManager.update_routing_state` (state_manager.py lines 226-270):
an unconditional `put_item` that overwrites the whole row; the score
and latency are stored as `int(routing_score)` / `int(avg_latency_ms)`. -/
def update_routing_state (tbl : RoutingTable) (instance_id region : String)
    (routing_score : ℚ) (queue_depth : ℤ) (avg_latency_ms : ℚ)
    (health_status subnet_cidr : String) (now : ℤ) : RoutingTable :=
  fun k => if k = instance_id then
    some { instance_id := instance_id, region := region,
           routing_score := pyTrunc routing_score, queue_depth := queue_depth,
           avg_latency_ms := pyTrunc avg_latency_ms, health_status := health_status,
           last_updated := now, subnet_cidr := subnet_cidr, ttl := now + 3600 }
  else tbl k

end StateManager

namespace InstanceRegistry

/-- `HealthStatus` enum (instance_registry.py). -/
inductive HealthStatus where
  | healthy
  | degraded
  | unhealthy
deriving DecidableEq, Repr

/-- The `.value` string of the enum member. -/
def HealthStatus.value : HealthStatus → String
  | .healthy => "healthy"
  | .degraded => "degraded"
  | .unhealthy => "unhealthy"

/-- The health-score dictionary in `update_routing_metrics`
(instance_registry.py lines 292-296). -/
def health_score_of : HealthStatus → ℤ
  | .healthy => 100
  | .degraded => 50
  | .unhealthy => 0

/-- `queue_score = max(0, 100 - (queue_depth * 10))`
(instance_registry.py line 289); integer arithmetic. -/
def queue_score (queue_depth : ℤ) : ℤ := max 0 (100 - queue_depth * 10)

/-- `latency_score = max(0, 100 - (avg_latency_ms / 10))`
(instance_registry.py line 290). -/
def latency_score (avg_latency_ms : ℚ) : ℚ := max 0 (100 - avg_latency_ms / 10)

/-- The weighted sum computed by `update_routing_metrics`
(instance_registry.py lines 298-302) before it is persisted. -/
def routing_score_raw (queue_depth : ℤ) (avg_latency_ms : ℚ) (h : HealthStatus) : ℚ :=
  (queue_score queue_depth : ℚ) * 0.5 + latency_score avg_latency_ms * 0.3
    + (health_score_of h : ℚ) * 0.2

/-- The instance lookup performed by `update_routing_metrics`
(lines 305-306): `get_instances_by_region(self.region)` followed by
`next(i for i in instances if i.instance_id == instance_id)`.
For a keyed store this is a lookup on the key with a region check. -/
def get_instance_in_region (tbl : StateManager.InstTable) (region instance_id : String) :
    Option StateManager.InstanceItem :=
  match tbl instance_id with
  | some r => if r.region = region then some r else none
  | none => none

/-- `InstanceRegistry.update_routing_metrics` (instance_registry.py
lines 264-323).  It computes the weighted routing score, then looks
the instance up; when the instance is not found it logs the error and
returns `False` without writing.  When the instance IS found, line 313
evaluates `instance.get('metadata', {}).get('subnet_cidr', '0.0.0.0/0')`
— but the stored `metadata` attribute is the `json.dumps` **string**
written at state_manager.py line 81 (contrast `_dict_to_instance`,
which decodes it with `json.loads`), so the second `.get` is called on
a `str` and raises `AttributeError`.  The function has no handler, so
the exception escapes and the `update_routing_state` call below line
313 is never reached: no routing score is ever persisted through this
function.  The result pairs the routing table with the returned
boolean on the non-raising path. -/
def update_routing_metrics (self_region : String) (instTbl : StateManager.InstTable)
    (rtTbl : StateManager.RoutingTable) (instance_id : String) (queue_depth : ℤ)
    (avg_latency_ms : ℚ) (health_status : HealthStatus) (now : ℤ) :
    PyResult (StateManager.RoutingTable × Bool) :=
  let _routing_score := routing_score_raw queue_depth avg_latency_ms health_status
  match get_instance_in_region instTbl self_region instance_id with
  | none => .ok (rtTbl, false)
  | some _ => .attributeError

end InstanceRegistry

namespace RouterApp

/-- An instance record as consumed by the Regional Router
(router_app.py): `select_instance` reads `status`, `health_score` and
`routing_score`; `forward_request` reads `instance_id` and
`private_ip`. -/
structure RouterInstance where
  instance_id : String
  private_ip : String
  status : String
  health_score : ℚ
  routing_score : ℚ
deriving DecidableEq, Repr

/-- Python `max(xs, key=f)` over a non-empty list `x :: xs`: fold that
replaces the current best only on a strictly greater key, hence
returning the first maximal element. -/
def py_max_by {α : Type} (f : α → ℚ) (x : α) (xs : List α) : α :=
  xs.foldl (fun b a => if f b < f a then a else b) x

/-- The registry read at router_app.py line 85:
`self.registry.get_instances_by_region_and_model(region, model_pool)`.
`InstanceRegistry` defines no such method (and no other definition in
the repository provides it), so the attribute access raises
`AttributeError` before any candidate list is produced. -/
def get_instances_by_region_and_model (region model_pool : String) :
    PyResult (List RouterInstance) :=
  .attributeError

/-- `RegionalRouter.select_instance` (router_app.py lines 69-109): its
first statement is the registry read above, which always raises, so
the body below it — empty check, filter to `status == 'ready' and
health_score > 50`, then Python `max` by `routing_score` — is dead
code; it is kept here as written. -/
def select_instance (region model_pool : String) : PyResult (Option RouterInstance) :=
  match get_instances_by_region_and_model region model_pool with
  | .attributeError => .attributeError
  | .ok instances =>
    .ok (if instances.isEmpty then none
      else
        match instances.filter
            (fun i => decide (i.status = "ready" ∧ 50 < i.health_score)) with
        | [] => none
        | x :: xs => some (py_max_by (fun i => i.routing_score) x xs))

/-- Outcome of the HTTP POST to the selected worker, as distinguished
by `forward_request`'s exception handlers. -/
inductive NetOutcome where
  | reply (body : List Nat) (status : ℤ)
  | timeout
  | connError
  | otherError
deriving DecidableEq, Repr

/-- Result of `process_request`: the returned
`(response_data, status_code)` pair. -/
structure ForwardResult where
  body : Option (List Nat)
  status : ℤ
deriving DecidableEq, Repr

/-- `registry.update_health(instance_id, health_score=0)` called in
`forward_request`'s ConnectionError handler (router_app.py line 168):
`InstanceRegistry` defines no `update_health` method, so the attribute
access raises `AttributeError` and no health or score write of any
kind is performed. -/
def update_health (instance_id : String) (health_score : ℚ) : PyResult Unit :=
  .attributeError

/-- `RegionalRouter.forward_request` (router_app.py lines 111-173):
replies pass through with the upstream status; `Timeout` returns
`(None, 504)`; on `ConnectionError` the handler calls the nonexistent
`registry.update_health`, whose `AttributeError` is raised inside the
`except` block and therefore escapes `forward_request` (the trailing
`except Exception` only guards the `try` body); any other exception
from the POST itself returns `(None, 500)`. -/
def forward_request (inst : RouterInstance) (net : String → NetOutcome) :
    PyResult ForwardResult :=
  match net inst.instance_id with
  | .reply body status => .ok ⟨some body, status⟩
  | .timeout => .ok ⟨none, 504⟩
  | .connError =>
    match update_health inst.instance_id 0 with
    | .attributeError => .attributeError
    | .ok _ => .ok ⟨none, 503⟩
  | .otherError => .ok ⟨none, 500⟩

/-- `RegionalRouter.process_request` (router_app.py lines 175-242):
select an instance (503 when selection returns None), forward exactly
once and return the forward result as-is; its catch-all `except
Exception` (lines 239-242) maps any escaped `AttributeError` — which
selection raises on every request — to `(None, 500)`. -/
def process_request (region model_pool : String) (net : String → NetOutcome) :
    ForwardResult :=
  match select_instance region model_pool with
  | .attributeError => ⟨none, 500⟩
  | .ok none => ⟨none, 503⟩
  | .ok (some inst) =>
    match forward_request inst net with
    | .attributeError => ⟨none, 500⟩
    | .ok r => r

end RouterApp

namespace HealthMonitor

/-- `HealthStatus` enum (health_monitor.py), which adds `UNKNOWN`. -/
inductive HStatus where
  | healthy
  | degraded
  | unhealthy
  | unknown
deriving DecidableEq, Repr

/-- The `.value` string of the enum member. -/
def HStatus.value : HStatus → String
  | .healthy => "healthy"
  | .degraded => "degraded"
  | .unhealthy => "unhealthy"
  | .unknown => "unknown"

/-- `InstanceHealth` dataclass (health_monitor.py). -/
structure InstanceHealth where
  instance_id : String
  region : String
  status : HStatus
  last_check : ℤ
  consecutive_failures : ℤ
  response_time_ms : ℚ
  error_message : Option String
deriving DecidableEq, Repr

/-- `RegionHealth` dataclass (health_monitor.py). -/
structure RegionHealth where
  region : String
  status : HStatus
  healthy_instances : ℕ
  total_instances : ℕ
  avg_response_time_ms : ℚ
  last_check : ℤ
  degraded_reason : Option String
deriving DecidableEq, Repr

/-- Renders a rational with one decimal digit, modelling Python's
`"%.1f"` formatting of the (nonnegative) healthy percentage; the
rendering truncates where Python rounds the last digit, and no claim
depends on this string. -/
def fmt1 (q : ℚ) : String := toString ⌊q⌋ ++ "." ++ toString (⌊q * 10⌋ % 10)

/-- `HealthMonitor.calculate_region_health` (health_monitor.py lines
220-289): empty input yields an `unhealthy` summary with reason
`"No instances available"`; otherwise the region status is derived
from the healthy percentage with `>= 80` / `>= 50` boundaries. -/
def calculate_region_health (region : String) (now : ℤ)
    (instance_healths : List InstanceHealth) : RegionHealth :=
  if instance_healths.isEmpty then
    { region := region, status := .unhealthy, healthy_instances := 0,
      total_instances := 0, avg_response_time_ms := 0, last_check := now,
      degraded_reason := some "No instances available" }
  else
    let total_instances := instance_healths.length
    let healthy_instances :=
      (instance_healths.filter (fun h => decide (h.status = .healthy))).length
    let degraded_instances :=
      (instance_healths.filter (fun h => decide (h.status = .degraded))).length
    let unhealthy_instances :=
      (instance_healths.filter (fun h => decide (h.status = .unhealthy))).length
    let successful_checks := instance_healths.filter
      (fun h => decide (h.status = .healthy ∨ h.status = .degraded))
    let avg_response_time : ℚ :=
      if successful_checks.isEmpty then 0
      else (successful_checks.map (fun h => h.response_time_ms)).sum
        / (successful_checks.length : ℚ)
    let healthy_percentage : ℚ :=
      ((healthy_instances : ℚ) / (total_instances : ℚ)) * 100
    if 80 ≤ healthy_percentage then
      { region := region, status := .healthy,
        healthy_instances := healthy_instances,
        total_instances := total_instances,
        avg_response_time_ms := avg_response_time, last_check := now,
        degraded_reason := none }
    else if 50 ≤ healthy_percentage then
      { region := region, status := .degraded,
        healthy_instances := healthy_instances,
        total_instances := total_instances,
        avg_response_time_ms := avg_response_time, last_check := now,
        degraded_reason := some (toString (degraded_instances + unhealthy_instances)
          ++ " instances unhealthy") }
    else
      { region := region, status := .unhealthy,
        healthy_instances := healthy_instances,
        total_instances := total_instances,
        avg_response_time_ms := avg_response_time, last_check := now,
        degraded_reason := some ("Only " ++ fmt1 healthy_percentage
          ++ "% instances healthy") }

/-- The score computed by `HealthMonitor._update_routing_health`
(health_monitor.py lines 393-400). -/
def base_score_of (health : InstanceHealth) : ℚ :=
  match health.status with
  | .healthy => max 0 (100 - health.response_time_ms / 10)
  | .degraded => 50
  | _ => 0

/-- `HealthMonitor._update_routing_health` (health_monitor.py lines
384-410): writes the RoutingState row through
`StateManager.update_routing_state` with the health-derived score,
`queue_depth=0` and `subnet_cidr="0.0.0.0/0"`. -/
def update_routing_health (self_region : String)
    (rtTbl : StateManager.RoutingTable) (health : InstanceHealth) (now : ℤ) :
    StateManager.RoutingTable :=
  StateManager.update_routing_state rtTbl health.instance_id self_region
    (base_score_of health) 0 health.response_time_ms health.status.value
    "0.0.0.0/0" now

end HealthMonitor

namespace FailoverHandler

/-- `FailoverState` enum (failover_handler.py). -/
inductive FailoverState where
  | normal
  | degraded
  | failover_active
  | recovering
deriving DecidableEq, Repr

/-- The three constructor thresholds of `FailoverHandler`. -/
structure Thresholds where
  degraded_threshold : ℚ
  unhealthy_threshold : ℚ
  recovery_threshold : ℚ
deriving DecidableEq, Repr

/-- Constructor defaults: 0.5 / 0.3 / 0.8. -/
def defaultThresholds : Thresholds := ⟨0.5, 0.3, 0.8⟩

/-- `FailoverHandler.evaluate_region_health` (failover_handler.py
lines 94-120): recommends a state from the healthy ratio; in the band
between the degraded and recovery thresholds it returns the current
state. -/
def evaluate_region_health (cfg : Thresholds) (current : FailoverState)
    (rh : HealthMonitor.RegionHealth) : FailoverState :=
  if rh.total_instances = 0 then .failover_active
  else
    let healthy_ratio : ℚ :=
      (rh.healthy_instances : ℚ) / (rh.total_instances : ℚ)
    if healthy_ratio < cfg.unhealthy_threshold then .failover_active
    else if healthy_ratio < cfg.degraded_threshold then .degraded
    else if cfg.recovery_threshold ≤ healthy_ratio then .normal
    else current

/-- `FailoverHandler.check_recovery` (failover_handler.py lines
235-272): only acts when the state is FAILOVER_ACTIVE; moves to
RECOVERING when the healthy ratio reaches the recovery threshold.
Returns the resulting state. -/
def check_recovery (cfg : Thresholds) (s : FailoverState)
    (rh : HealthMonitor.RegionHealth) : FailoverState :=
  if s ≠ .failover_active then s
  else
    let healthy_ratio : ℚ :=
      if 0 < rh.total_instances then
        (rh.healthy_instances : ℚ) / (rh.total_instances : ℚ)
      else 0
    if cfg.recovery_threshold ≤ healthy_ratio then .recovering else s

/-- `FailoverHandler.complete_recovery` (failover_handler.py lines
274-297): RECOVERING → NORMAL, otherwise no change. -/
def complete_recovery (s : FailoverState) : FailoverState :=
  if s = .recovering then .normal else s

/-- One iteration of `run_failover_monitor_loop` (failover_handler.py
lines 436-469), as a function of the observed `RegionHealth` only —
there is no time input.  `targets_available` says whether
`initiate_failover` finds a sibling region with at least one available
worker; only then does it commit the FAILOVER_ACTIVE state (lines
196-211). -/
def monitor_tick (cfg : Thresholds) (targets_available : Bool)
    (s : FailoverState) (rh : HealthMonitor.RegionHealth) : FailoverState :=
  match evaluate_region_health cfg s rh with
  | .failover_active =>
      if s ≠ .failover_active then
        (if targets_available then .failover_active else s)
      else s
  | .normal =>
      if s = .recovering then complete_recovery s
      else if s = .failover_active then check_recovery cfg s rh
      else s
  | .degraded => if s = .normal then .degraded else s
  | .recovering => s

end FailoverHandler

namespace AutoScaler

/-- The autoscaling-state row (autoscaler.py `get_scaling_state`). -/
structure ScalingState where
  desired_capacity : ℤ
  last_scale_action : Option String
  last_scale_time : ℚ
  high_rps_since : Option ℚ
  low_rps_since : Option ℚ
deriving DecidableEq, Repr

/-- The scaling configuration set in `AutoScaler.__init__`. -/
structure Config where
  target_rps_per_instance : ℚ
  min_instances : ℤ
  max_instances : ℤ
  scale_up_threshold_minutes : ℤ
  scale_down_threshold_minutes : ℤ
  cooldown_period_seconds : ℚ
deriving DecidableEq, Repr

/-- The constructor defaults: 12.5 RPS target, 2..20 instances,
2/10 minute dwell, 300 s cooldown. -/
def defaultConfig : Config := ⟨12.5, 2, 20, 2, 10, 300⟩

/-- `AutoScaler.get_scaling_state` (autoscaler.py lines 133-159): the
body's first statement calls `state_mgr.get_autoscaling_state`, a
method `StateManager` does not define, so it raises `AttributeError`
inside the function's own `try`; the handler returns the empty dict
`{}` (the initial-state branch, which would itself call the equally
nonexistent `update_autoscaling_state`, is never reached).  Reads of
the empty dict through `.get` yield the defaults used by the deciders:
`last_scale_time` 0 and no dwell timers (`desired_capacity` is never
read). -/
def get_scaling_state : ScalingState :=
  { desired_capacity := 0, last_scale_action := none, last_scale_time := 0,
    high_rps_since := none, low_rps_since := none }

/-- `AutoScaler.should_scale_up` (autoscaler.py lines 161-223).  The
max-capacity and cooldown refusals return `False` untouched.  The
dwell-timer start branch (high RPS, no timer) and the timer-reset
branch (low RPS, timer set) both call
`state_mgr.update_autoscaling_state`, which does not exist: the
`AttributeError` escapes the function (it has no handler), so those
branches raise instead of persisting, and the `return False` after
them is dead code. -/
def should_scale_up (cfg : Config) (now current_rps : ℚ) (current_count : ℤ)
    (st : ScalingState) : PyResult Bool :=
  if cfg.max_instances ≤ current_count then .ok false
  else if now - st.last_scale_time < cfg.cooldown_period_seconds then .ok false
  else
    let target_rps := cfg.target_rps_per_instance * (current_count : ℚ)
    let scale_up_threshold := target_rps * 1.2
    if scale_up_threshold < current_rps then
      match st.high_rps_since with
      | none => .attributeError
      | some since =>
          if (cfg.scale_up_threshold_minutes : ℚ) * 60 ≤ now - since then .ok true
          else .ok false
    else
      match st.high_rps_since with
      | some _ => .attributeError
      | none => .ok false

/-- `AutoScaler.should_scale_down` (autoscaler.py lines 225-288), with
the same crashing persist branches as `should_scale_up`. -/
def should_scale_down (cfg : Config) (now current_rps : ℚ) (current_count : ℤ)
    (st : ScalingState) : PyResult Bool :=
  if current_count ≤ cfg.min_instances then .ok false
  else if now - st.last_scale_time < cfg.cooldown_period_seconds then .ok false
  else
    let target_rps := cfg.target_rps_per_instance * (current_count : ℚ)
    let scale_down_threshold := target_rps * 0.5
    if current_rps < scale_down_threshold then
      match st.low_rps_since with
      | none => .attributeError
      | some since =>
          if (cfg.scale_down_threshold_minutes : ℚ) * 60 ≤ now - since then .ok true
          else .ok false
    else
      match st.low_rps_since with
      | some _ => .attributeError
      | none => .ok false

/-- `AutoScaler.scale_up` (autoscaler.py lines 290-333): the EC2
launch is commented out in the source; the function re-reads the
scaling state, updates the local dict and calls
`state_mgr.update_autoscaling_state`, which does not exist; its own
`except Exception` handler catches the `AttributeError` and returns
`False`.  Nothing is persisted: in particular `last_scale_time` is
never stamped. -/
def scale_up : Bool := false

/-- `AutoScaler.scale_down` (autoscaler.py lines 335-385): its first
statement calls `state_mgr.list_gpu_instances`, which does not exist;
the `except Exception` handler catches the `AttributeError` and
returns `False`.  No instance is terminated and nothing is persisted. -/
def scale_down : Bool := false

/-- The observable outcome of one `AutoScaler.run` tick. -/
inductive TickOutcome where
  | crashed
  | no_action
  | scale_up_attempted (ok : Bool)
  | scale_down_attempted (ok : Bool)
deriving DecidableEq, Repr

/-- One `AutoScaler.run` tick (autoscaler.py lines 387-412):
`get_current_instance_count` calls the nonexistent
`list_gpu_instances`, catches its own `AttributeError` and returns 0,
so `current_count` is always 0; `get_scaling_state` always yields the
empty dict; a decider crash is caught by `run`'s catch-all (`crashed`,
nothing recorded); a `True` decision would invoke `scale_up` /
`scale_down`, which always return `False`. -/
def run_tick (cfg : Config) (now current_rps : ℚ) : TickOutcome :=
  let current_count : ℤ := 0
  let st := get_scaling_state
  match should_scale_up cfg now current_rps current_count st with
  | .attributeError => .crashed
  | .ok true => .scale_up_attempted scale_up
  | .ok false =>
    match should_scale_down cfg now current_rps current_count st with
    | .attributeError => .crashed
    | .ok true => .scale_down_attempted scale_down
    | .ok false => .no_action

end AutoScaler

namespace MetricsCollector

/-- A metric row as returned by `StateManager.get_metrics`. -/
structure MetricRecord where
  metric_name : String
  timestamp : ℤ
  region : String
  value : ℚ
  unit : String
  dimensions : List (String × String)
deriving DecidableEq, Repr

/-- The fixed region list hard-coded in metrics_collector.py. -/
def regions : List String := ["us-east-1", "us-east-2", "us-west-2"]

/-- `json.loads(m.get('dimensions', '{}')).get(key)`. -/
def dim_lookup (dims : List (String × String)) (key : String) : Option String :=
  (dims.find? (fun p => p.1 = key)).map Prod.snd

/-- Result shape of `get_model_load_stats`. -/
structure LoadStats where
  min : ℚ
  max : ℚ
  avg : ℚ
  p50 : ℚ
  p95 : ℚ
  p99 : ℚ
  count : ℕ
deriving DecidableEq, Repr

/-- `MetricsCollector.get_model_load_stats` (metrics_collector.py
lines 278-333): gathers `model_load_time` rows across the three
regions filtered by model pool; with no samples returns all-zero stats
with `count = 0`; otherwise sorts the values and picks floor-indexed
percentiles. -/
def get_model_load_stats (getM : String → List MetricRecord)
    (model_pool : String) : LoadStats :=
  let metrics := (regions.map (fun r =>
    (getM r).filter
      (fun m => dim_lookup m.dimensions "model_pool" = some model_pool))).flatten
  if metrics.isEmpty then ⟨0, 0, 0, 0, 0, 0, 0⟩
  else
    let values := (metrics.map (fun m => m.value)).insertionSort (· ≤ ·)
    let count := values.length
    { min := values.headD 0,
      max := values.getLastD 0,
      avg := values.sum / (count : ℚ),
      p50 := values.getD ((pyTrunc ((count : ℚ) * 0.50)).toNat) 0,
      p95 := values.getD ((pyTrunc ((count : ℚ) * 0.95)).toNat) 0,
      p99 := values.getD ((pyTrunc ((count : ℚ) * 0.99)).toNat) 0,
      count := count }

/-- Result shape of `get_cleanup_success_rate`. -/
structure CleanupStats where
  success_rate : ℚ
  total_validations : ℕ
  passed : ℕ
  failed : ℕ
deriving DecidableEq, Repr

/-- `MetricsCollector.get_cleanup_success_rate` (metrics_collector.py
lines 380-428): gathers `cleanup_validation_duration` rows across the
three regions; with no samples returns `success_rate = 100.0` and zero
counts. -/
def get_cleanup_success_rate (getM : String → List MetricRecord) : CleanupStats :=
  let metrics := (regions.map getM).flatten
  if metrics.isEmpty then ⟨100, 0, 0, 0⟩
  else
    let passed := (metrics.filter
      (fun m => dim_lookup m.dimensions "status" = some "passed")).length
    let failed := (metrics.filter
      (fun m => dim_lookup m.dimensions "status" = some "failed")).length
    let total := passed + failed
    { success_rate := if 0 < total then (passed : ℚ) / (total : ℚ) * 100 else 100,
      total_validations := total, passed := passed, failed := failed }

/-- `MetricsCollector.get_cluster_rps` (metrics_collector.py lines
196-234): per-region average of the `rps` rows in the window,
optionally filtered by model pool; `0.0` for a region with no rows. -/
def get_cluster_rps (model_pool : Option String)
    (getM : String → List MetricRecord) : List (String × ℚ) :=
  regions.map (fun r =>
    let base := getM r
    let metrics : List MetricRecord := match model_pool with
      | some mp => base.filter
          (fun m => dim_lookup m.dimensions "model_pool" = some mp)
      | none => base
    (r, if metrics.isEmpty then 0
        else (metrics.map (fun m => m.value)).sum / (metrics.length : ℚ)))

/-- `MetricsCollector.get_average_queue_depth` (metrics_collector.py
lines 236-276): keeps, per `instance_id` dimension, the latest row,
then averages those values; `0.0` when there are no rows or no rows
with an `instance_id`. -/
def get_average_queue_depth (metrics : List MetricRecord) : ℚ :=
  if metrics.isEmpty then 0
  else
    let latest := metrics.foldl (fun acc m =>
      match dim_lookup m.dimensions "instance_id" with
      | none => acc
      | some iid =>
        match acc.find? (fun p => p.1 = iid) with
        | none => acc ++ [(iid, m)]
        | some (_, old) =>
            if old.timestamp < m.timestamp then
              acc.map (fun p => if p.1 = iid then (iid, m) else p)
            else acc) ([] : List (String × MetricRecord))
    if latest.isEmpty then 0
    else (latest.map (fun p => p.2.value)).sum / (latest.length : ℚ)

end MetricsCollector

/-- Baseline worker row used in concrete counterexamples/witnesses. -/
def exInstance : StateManager.InstanceItem :=
  { instance_id := "i-0001", region := "us-east-1", model_pool := "model-a",
    state := "launching", queue_depth := 0, last_heartbeat := 100,
    launch_time := 100, ip_address := "10.0.0.1", subnet_id := "subnet-1",
    availability_zone := "us-east-1a", metadata := [], ttl := 100 + 604800 }

/-- A one-row instance table holding `exInstance`. -/
def exInstTable : StateManager.InstTable :=
  fun k => if k = "i-0001" then some exInstance else none

/-- A scaling-state row with `last_scale_time = 0` and no dwell
timers, used in concrete witnesses. -/
def exScalingState : AutoScaler.ScalingState :=
  { desired_capacity := 2, last_scale_action := none, last_scale_time := 0,
    high_rps_since := none, low_rps_since := none }

/-- Five probe results with 4 healthy and 1 degraded: the healthy
ratio is exactly 0.80, the inclusive boundary. -/
def exHealths : List HealthMonitor.InstanceHealth :=
  [⟨"i-0201", "us-east-1", HealthMonitor.HStatus.healthy, 0, 0, 10, none⟩,
   ⟨"i-0202", "us-east-1", HealthMonitor.HStatus.healthy, 0, 0, 10, none⟩,
   ⟨"i-0203", "us-east-1", HealthMonitor.HStatus.healthy, 0, 0, 10, none⟩,
   ⟨"i-0204", "us-east-1", HealthMonitor.HStatus.healthy, 0, 0, 10, none⟩,
   ⟨"i-0205", "us-east-1", HealthMonitor.HStatus.degraded, 0, 0, 10, none⟩]

end Mrgc

namespace Mrgc

open InstanceRegistry StateManager

/-- The queue-depth factor is exactly divisible: `0.5 * queue_score` is
the integer `5 * max 0 (10 - queue_depth)`. -/
lemma queue_term_int (q : ℤ) :
    (queue_score q : ℚ) * 0.5 = ((5 * max 0 (10 - q) : ℤ) : ℚ) := by
  have hqs : queue_score q = 10 * max 0 (10 - q) := by
    unfold queue_score
    rw [mul_max_of_nonneg _ _ (by norm_num : (0 : ℤ) ≤ 10)]
    norm_num
    ring_nf
  rw [hqs]
  push_cast
  ring

/-- The health factor is exactly divisible: `0.2 * health_score` is an
integer in `{0, 10, 20}`. -/
lemma health_term_int (h : HealthStatus) :
    ∃ b : ℤ, (health_score_of h : ℚ) * 0.2 = (b : ℚ) ∧ 0 ≤ b ∧ b ≤ 20 := by
  cases h with
  | healthy => exact ⟨20, by norm_num [health_score_of], by norm_num, by norm_num⟩
  | degraded => exact ⟨10, by norm_num [health_score_of], by norm_num, by norm_num⟩
  | unhealthy => exact ⟨0, by norm_num [health_score_of], by norm_num, by norm_num⟩

lemma latency_term_nonneg (l : ℚ) : 0 ≤ latency_score l * 0.3 :=
  mul_nonneg (le_max_left 0 _) (by norm_num)

lemma latency_term_le (l : ℚ) (hl : 0 ≤ l) : latency_score l * 0.3 ≤ 30 := by
  have h1 : latency_score l ≤ 100 := by
    unfold latency_score
    apply max_le (by norm_num)
    have : 0 ≤ l / 10 := div_nonneg hl (by norm_num)
    linarith
  calc latency_score l * 0.3 ≤ 100 * 0.3 :=
        mul_le_mul_of_nonneg_right h1 (by norm_num)
    _ = 30 := by norm_num

/-- Floor of an integer + rational + integer sum splits per term. -/
lemma floor_int_add_int (A B : ℤ) (L : ℚ) :
    ⌊(A : ℚ) + L + (B : ℚ)⌋ = A + ⌊L⌋ + B := by
  rw [Int.floor_add_int, Int.floor_int_add]

/-- Core arithmetic fact behind claim C1: truncating the weighted sum
equals summing the per-term floors, and the result is in [0, 100]. -/
lemma routing_score_decomp (q : ℤ) (l : ℚ) (h : HealthStatus)
    (hq : 0 ≤ q) (hl : 0 ≤ l) :
    pyTrunc (routing_score_raw q l h)
        = ⌊(0.5 : ℚ) * max 0 (100 - (q : ℚ) * 10)⌋
          + ⌊(0.3 : ℚ) * max 0 (100 - l / 10)⌋
          + ⌊(0.2 : ℚ) * (health_score_of h : ℚ)⌋
      ∧ 0 ≤ pyTrunc (routing_score_raw q l h)
      ∧ pyTrunc (routing_score_raw q l h) ≤ 100 := by
  obtain ⟨B, hB, hB0, hB20⟩ := health_term_int h
  set A : ℤ := 5 * max 0 (10 - q) with hAdef
  have hA0 : 0 ≤ A := by
    have : (0 : ℤ) ≤ max 0 (10 - q) := le_max_left 0 _
    omega
  have hA50 : A ≤ 50 := by
    have : max 0 (10 - q) ≤ 10 := max_le (by omega) (by omega)
    omega
  have hraw : routing_score_raw q l h = (A : ℚ) + latency_score l * 0.3 + (B : ℚ) := by
    unfold routing_score_raw
    rw [queue_term_int, hB]
  have hL0 : 0 ≤ latency_score l * 0.3 := latency_term_nonneg l
  have hL30 : latency_score l * 0.3 ≤ 30 := latency_term_le l hl
  have hfl0 : 0 ≤ ⌊latency_score l * 0.3⌋ := Int.floor_nonneg.mpr hL0
  have hfl30 : ⌊latency_score l * 0.3⌋ ≤ 30 := by
    have := Int.floor_mono hL30
    simpa using this
  have hnn : 0 ≤ routing_score_raw q l h := by
    rw [hraw]
    have : (0 : ℚ) ≤ (A : ℚ) := by exact_mod_cast hA0
    have : (0 : ℚ) ≤ (B : ℚ) := by exact_mod_cast hB0
    positivity
  have htr : pyTrunc (routing_score_raw q l h) = ⌊routing_score_raw q l h⌋ := by
    unfold pyTrunc
    rw [if_pos hnn]
  have hfloor : ⌊routing_score_raw q l h⌋ = A + ⌊latency_score l * 0.3⌋ + B := by
    rw [hraw, floor_int_add_int]
  refine ⟨?_, ?_, ?_⟩
  · rw [htr, hfloor]
    have e1 : ⌊(0.5 : ℚ) * max 0 (100 - (q : ℚ) * 10)⌋ = A := by
      have hc : ((queue_score q : ℤ) : ℚ) = max 0 (100 - (q : ℚ) * 10) := by
        unfold queue_score
        push_cast
        ring_nf
      rw [← hc, mul_comm, queue_term_int, Int.floor_intCast, ← hAdef]
    have e2 : ⌊(0.3 : ℚ) * max 0 (100 - l / 10)⌋ = ⌊latency_score l * 0.3⌋ := by
      rw [mul_comm]
      rfl
    have e3 : ⌊(0.2 : ℚ) * (health_score_of h : ℚ)⌋ = B := by
      rw [mul_comm, hB, Int.floor_intCast]
    rw [e1, e2, e3]
  · rw [htr, hfloor]
    omega
  · rw [htr, hfloor]
    omega

/-- C1.  For every registered instance that `update_routing_metrics`
finds in its region, the call raises `AttributeError` (line 313 calls
`.get('subnet_cidr', ...)` on the JSON-encoded `metadata` string), so
the routing score is never persisted; the score the function computes
before the crash does satisfy the claimed formula with floor rounding
after each multiplication before summation and lies in [0, 100] for
every `queue_depth ≥ 0` and `avg_latency_ms ≥ 0`. -/
theorem C1_routing_metrics_attribute_error (self_region : String)
    (instTbl : StateManager.InstTable) (rtTbl : StateManager.RoutingTable)
    (instance_id : String) (queue_depth : ℤ) (avg_latency_ms : ℚ)
    (hstat : HealthStatus) (now : ℤ) (inst : StateManager.InstanceItem)
    (hq : 0 ≤ queue_depth) (hl : 0 ≤ avg_latency_ms)
    (hfind : instTbl instance_id = some inst) (hreg : inst.region = self_region) :
    update_routing_metrics self_region instTbl rtTbl instance_id
        queue_depth avg_latency_ms hstat now = PyResult.attributeError
    ∧ pyTrunc (routing_score_raw queue_depth avg_latency_ms hstat)
        = ⌊(0.5 : ℚ) * max 0 (100 - (queue_depth : ℚ) * 10)⌋
          + ⌊(0.3 : ℚ) * max 0 (100 - avg_latency_ms / 10)⌋
          + ⌊(0.2 : ℚ) * (health_score_of hstat : ℚ)⌋
    ∧ 0 ≤ pyTrunc (routing_score_raw queue_depth avg_latency_ms hstat)
    ∧ pyTrunc (routing_score_raw queue_depth avg_latency_ms hstat) ≤ 100 := by
  obtain ⟨hform, hpos, hle⟩ :=
    routing_score_decomp queue_depth avg_latency_ms hstat hq hl
  have hget : get_instance_in_region instTbl self_region instance_id = some inst := by
    unfold get_instance_in_region
    rw [hfind]
    simp [hreg]
  refine ⟨?_, hform, hpos, hle⟩
  unfold update_routing_metrics
  rw [hget]

/-- Witness for C1 at a concrete input: a registered instance with
queue depth 1, latency 20 ms, healthy status; the computed score would
be 45 + 29 + 20 = 94, but the call raises. -/
theorem C1_routing_metrics_attribute_error_witness :
    update_routing_metrics "us-east-1" exInstTable (fun _ => none)
        "i-0001" 1 20 HealthStatus.healthy 1000 = PyResult.attributeError
    ∧ pyTrunc (routing_score_raw 1 20 HealthStatus.healthy)
        = ⌊(0.5 : ℚ) * max 0 (100 - ((1 : ℤ) : ℚ) * 10)⌋
          + ⌊(0.3 : ℚ) * max 0 (100 - (20 : ℚ) / 10)⌋
          + ⌊(0.2 : ℚ) * (health_score_of HealthStatus.healthy : ℚ)⌋
    ∧ 0 ≤ pyTrunc (routing_score_raw 1 20 HealthStatus.healthy)
    ∧ pyTrunc (routing_score_raw 1 20 HealthStatus.healthy) ≤ 100 :=
  C1_routing_metrics_attribute_error "us-east-1" exInstTable (fun _ => none)
    "i-0001" 1 20 HealthStatus.healthy 1000 exInstance
    (by norm_num) (by norm_num) (by simp [exInstTable]) rfl

/-- C4 counterexample.  `register_instance` performs an unconditional
`put_item`: repeating the call with the same `instance_id` (here at a
later time `200`) returns the success result `true`, not a conflict,
and replaces the previously stored row (`launch_time` changes from
`100` to `200`).  This refutes the claim that a repeated call yields a
conflict result and leaves the stored row unchanged. -/
theorem C4_register_repeat_no_conflict_cex :
    ((register_instance exInstTable "i-0001" "us-east-1" "model-a" "10.0.0.1"
        "subnet-1" "us-east-1a" [] 200).2 = true)
    ∧ ((register_instance exInstTable "i-0001" "us-east-1" "model-a" "10.0.0.1"
        "subnet-1" "us-east-1a" [] 200).1 "i-0001" ≠ exInstTable "i-0001") := by
  constructor
  · rfl
  · intro hcontra
    simp only [register_instance, exInstTable, if_pos rfl] at hcontra
    have := congrArg (fun o => (Option.map StateManager.InstanceItem.launch_time o).getD 0)
      hcontra
    simp [exInstance] at this

/-- C4 amended.  `register_instance` creates the worker row in state
`"launching"`, and a repeated call with the same `instance_id`
succeeds again (returns `true`: there is no conflict detection) and
overwrites the stored row with a fresh `"launching"` row built from
the repeated call's arguments. -/
theorem C4_register_creates_launching_and_overwrites
    (tbl : StateManager.InstTable)
    (instance_id region model_pool ip_address subnet_id availability_zone : String)
    (md : List (String × String)) (now : ℤ)
    (region' model_pool' ip_address' subnet_id' availability_zone' : String)
    (md' : List (String × String)) (now' : ℤ) :
    (register_instance tbl instance_id region model_pool ip_address subnet_id
        availability_zone md now).2 = true
    ∧ (register_instance tbl instance_id region model_pool ip_address subnet_id
        availability_zone md now).1 instance_id
      = some ⟨instance_id, region, model_pool, "launching", 0, now, now,
          ip_address, subnet_id, availability_zone, md, now + 604800⟩
    ∧ (register_instance
        (register_instance tbl instance_id region model_pool ip_address subnet_id
          availability_zone md now).1
        instance_id region' model_pool' ip_address' subnet_id' availability_zone'
        md' now').2 = true
    ∧ (register_instance
        (register_instance tbl instance_id region model_pool ip_address subnet_id
          availability_zone md now).1
        instance_id region' model_pool' ip_address' subnet_id' availability_zone'
        md' now').1 instance_id
      = some ⟨instance_id, region', model_pool', "launching", 0, now', now',
          ip_address', subnet_id', availability_zone', md', now' + 604800⟩ := by
  refine ⟨rfl, ?_, rfl, ?_⟩ <;> simp [register_instance]

/-- C5.  `heartbeat` updates only `last_heartbeat` and `queue_depth`
of the worker row: the new row equals the old row with exactly those
two fields replaced, every other field (in particular `state`) is
unchanged, and rows of other instances are untouched. -/
theorem C5_heartbeat_frame (tbl : StateManager.InstTable) (instance_id : String)
    (q now : ℤ) (r : StateManager.InstanceItem)
    (hr : tbl instance_id = some r) :
    (heartbeat tbl instance_id q now).1 instance_id
        = some { r with last_heartbeat := now, queue_depth := q }
    ∧ ({ r with last_heartbeat := now, queue_depth := q }
        : StateManager.InstanceItem).state = r.state
    ∧ ({ r with last_heartbeat := now, queue_depth := q }
        : StateManager.InstanceItem).region = r.region
    ∧ ({ r with last_heartbeat := now, queue_depth := q }
        : StateManager.InstanceItem).model_pool = r.model_pool
    ∧ ({ r with last_heartbeat := now, queue_depth := q }
        : StateManager.InstanceItem).launch_time = r.launch_time
    ∧ ({ r with last_heartbeat := now, queue_depth := q }
        : StateManager.InstanceItem).ip_address = r.ip_address
    ∧ ({ r with last_heartbeat := now, queue_depth := q }
        : StateManager.InstanceItem).subnet_id = r.subnet_id
    ∧ ({ r with last_heartbeat := now, queue_depth := q }
        : StateManager.InstanceItem).availability_zone = r.availability_zone
    ∧ ({ r with last_heartbeat := now, queue_depth := q }
        : StateManager.InstanceItem).metadata = r.metadata
    ∧ ({ r with last_heartbeat := now, queue_depth := q }
        : StateManager.InstanceItem).ttl = r.ttl
    ∧ ∀ k, k ≠ instance_id → (heartbeat tbl instance_id q now).1 k = tbl k := by
  refine ⟨?_, rfl, rfl, rfl, rfl, rfl, rfl, rfl, rfl, rfl, ?_⟩
  · simp [heartbeat, hr]
  · intro k hk
    simp [heartbeat, hk]

/-- Witness for C5 at a concrete table: heartbeat with queue depth 5
at time 150 on the registered row `exInstance`. -/
theorem C5_heartbeat_frame_witness :
    (heartbeat exInstTable "i-0001" 5 150).1 "i-0001"
        = some { exInstance with last_heartbeat := 150, queue_depth := 5 }
    ∧ ({ exInstance with last_heartbeat := 150, queue_depth := 5 }
        : StateManager.InstanceItem).state = exInstance.state
    ∧ ({ exInstance with last_heartbeat := 150, queue_depth := 5 }
        : StateManager.InstanceItem).region = exInstance.region
    ∧ ({ exInstance with last_heartbeat := 150, queue_depth := 5 }
        : StateManager.InstanceItem).model_pool = exInstance.model_pool
    ∧ ({ exInstance with last_heartbeat := 150, queue_depth := 5 }
        : StateManager.InstanceItem).launch_time = exInstance.launch_time
    ∧ ({ exInstance with last_heartbeat := 150, queue_depth := 5 }
        : StateManager.InstanceItem).ip_address = exInstance.ip_address
    ∧ ({ exInstance with last_heartbeat := 150, queue_depth := 5 }
        : StateManager.InstanceItem).subnet_id = exInstance.subnet_id
    ∧ ({ exInstance with last_heartbeat := 150, queue_depth := 5 }
        : StateManager.InstanceItem).availability_zone = exInstance.availability_zone
    ∧ ({ exInstance with last_heartbeat := 150, queue_depth := 5 }
        : StateManager.InstanceItem).metadata = exInstance.metadata
    ∧ ({ exInstance with last_heartbeat := 150, queue_depth := 5 }
        : StateManager.InstanceItem).ttl = exInstance.ttl
    ∧ ∀ k, k ≠ "i-0001" → (heartbeat exInstTable "i-0001" 5 150).1 k = exInstTable k :=
  C5_heartbeat_frame exInstTable "i-0001" 5 150 exInstance (by simp [exInstTable])

/-- C2 counterexample.  The Router can never return a worker or a
503: `select_instance`'s registry read raises `AttributeError` on
every request, and `process_request`'s catch-all maps it to
`(None, 500)` — here even with a network that would answer 200, and
with a status that is not the claimed 503. -/
theorem C2_request_always_500_cex :
    RouterApp.process_request "us-east-1" "default"
        (fun _ => RouterApp.NetOutcome.reply [1] 200)
      = { body := none, status := 500 }
    ∧ (RouterApp.process_request "us-east-1" "default"
        (fun _ => RouterApp.NetOutcome.reply [1] 200)).status ≠ 503 := by
  constructor
  · rfl
  · intro h
    rw [show (RouterApp.process_request "us-east-1" "default"
        (fun _ => RouterApp.NetOutcome.reply [1] 200)).status = 500 from rfl] at h
    norm_num at h

/-- C2 amended.  Every inbound request fails with HTTP 500: the
candidate read `registry.get_instances_by_region_and_model` exists
nowhere in the repository, so `select_instance` raises
`AttributeError` unconditionally and `process_request`'s catch-all
returns `(None, 500)`; no worker is ever selected or forwarded to, and
the status/health-score filter and maximum-score selection in
`select_instance`'s body (dead code) never execute. -/
theorem C2_selection_always_crashes (region model_pool : String)
    (net : String → RouterApp.NetOutcome) :
    RouterApp.select_instance region model_pool = PyResult.attributeError
    ∧ RouterApp.process_request region model_pool net
      = { body := none, status := 500 } :=
  ⟨rfl, rfl⟩

/-- C3 counterexample.  On a connection error there is no score write
and no retry: the handler's `registry.update_health` call raises
`AttributeError` out of `forward_request`; and at request level the
caller receives `(None, 500)` — no demote-and-retry, and on a timeout
not even a 504, because selection crashes before any forward. -/
theorem C3_conn_error_no_write_cex :
    RouterApp.forward_request ⟨"i-0003", "10.0.0.3", "ready", 100, 90⟩
        (fun _ => RouterApp.NetOutcome.connError) = PyResult.attributeError
    ∧ RouterApp.process_request "us-east-1" "default"
        (fun _ => RouterApp.NetOutcome.connError)
      = { body := none, status := 500 }
    ∧ RouterApp.process_request "us-east-1" "default"
        (fun _ => RouterApp.NetOutcome.timeout)
      = { body := none, status := 500 } :=
  ⟨rfl, rfl, rfl⟩

/-- C3 amended.  `forward_request` maps a timeout to `(None, 504)`
without retrying; on a connection error it raises `AttributeError` at
the nonexistent `registry.update_health`, so no score write of any
kind and no retry happen; and `process_request` never reaches
forwarding at all (selection always raises), so the caller receives
`(None, 500)` for every request regardless of the network outcome. -/
theorem C3_forward_error_paths (inst : RouterApp.RouterInstance)
    (net : String → RouterApp.NetOutcome) :
    (net inst.instance_id = RouterApp.NetOutcome.timeout →
      RouterApp.forward_request inst net
        = PyResult.ok { body := none, status := 504 })
    ∧ (net inst.instance_id = RouterApp.NetOutcome.connError →
      RouterApp.forward_request inst net = PyResult.attributeError)
    ∧ (∀ region model_pool : String,
      RouterApp.process_request region model_pool net
        = { body := none, status := 500 }) := by
  refine ⟨?_, ?_, fun region model_pool => rfl⟩ <;> intro h <;>
    simp [RouterApp.forward_request, RouterApp.update_health, h]

/-- Witness for C3 at concrete inputs. -/
theorem C3_forward_error_paths_witness :
    (RouterApp.forward_request ⟨"i-0009", "10.0.0.9", "ready", 100, 90⟩
        (fun _ => RouterApp.NetOutcome.timeout)
      = PyResult.ok { body := none, status := 504 })
    ∧ (RouterApp.forward_request ⟨"i-0008", "10.0.0.8", "ready", 100, 90⟩
        (fun _ => RouterApp.NetOutcome.connError) = PyResult.attributeError)
    ∧ RouterApp.process_request "us-east-1" "default"
        (fun _ => RouterApp.NetOutcome.timeout) = { body := none, status := 500 } :=
  ⟨(C3_forward_error_paths ⟨"i-0009", "10.0.0.9", "ready", 100, 90⟩
      (fun _ => RouterApp.NetOutcome.timeout)).1 rfl,
   (C3_forward_error_paths ⟨"i-0008", "10.0.0.8", "ready", 100, 90⟩
      (fun _ => RouterApp.NetOutcome.connError)).2.1 rfl,
   (C3_forward_error_paths ⟨"i-0008", "10.0.0.8", "ready", 100, 90⟩
      (fun _ => RouterApp.NetOutcome.timeout)).2.2 "us-east-1" "default"⟩

/-- The status component of `calculate_region_health` on a non-empty
list, as a two-threshold conditional on the healthy percentage. -/
lemma calc_region_status_ite (region : String) (now : ℤ)
    (x : HealthMonitor.InstanceHealth) (xs : List HealthMonitor.InstanceHealth) :
    (HealthMonitor.calculate_region_health region now (x :: xs)).status
      = (if (80 : ℚ) ≤ ((((x :: xs).filter (fun h =>
            decide (h.status = HealthMonitor.HStatus.healthy))).length : ℚ)
            / (((x :: xs).length : ℕ) : ℚ)) * 100
        then HealthMonitor.HStatus.healthy
        else if (50 : ℚ) ≤ ((((x :: xs).filter (fun h =>
            decide (h.status = HealthMonitor.HStatus.healthy))).length : ℚ)
            / (((x :: xs).length : ℕ) : ℚ)) * 100
        then HealthMonitor.HStatus.degraded
        else HealthMonitor.HStatus.unhealthy) := by
  unfold HealthMonitor.calculate_region_health
  rw [if_neg (by simp)]
  dsimp only
  split_ifs <;> rfl

/-- C6 counterexample.  An empty region is mapped to `unhealthy`, but
the reason string written by the code is `"No instances available"`,
not `"no instances"`. -/
theorem C6_empty_region_reason_cex :
    HealthMonitor.calculate_region_health "us-east-1" 0 []
      = { region := "us-east-1", status := HealthMonitor.HStatus.unhealthy,
          healthy_instances := 0, total_instances := 0,
          avg_response_time_ms := 0, last_check := 0,
          degraded_reason := some "No instances available" }
    ∧ (HealthMonitor.calculate_region_health "us-east-1" 0 []).degraded_reason
      ≠ some "no instances" := by
  constructor
  · rfl
  · decide

/-- C6 amended.  `calculate_region_health` maps a non-empty list of
instance health results to a region status by the healthy ratio with
an inclusive 0.80 upper boundary: ratio ≥ 0.80 is healthy, 0.50 ≤
ratio < 0.80 is degraded, ratio < 0.50 is unhealthy; an empty region
yields unhealthy with reason `"No instances available"`. -/
theorem C6_region_health_thresholds (region : String) (now : ℤ)
    (hs : List HealthMonitor.InstanceHealth) (hne : hs ≠ []) :
    ((HealthMonitor.calculate_region_health region now hs).status
        = HealthMonitor.HStatus.healthy
      ↔ (4/5 : ℚ) ≤ ((hs.filter (fun h =>
            decide (h.status = HealthMonitor.HStatus.healthy))).length : ℚ)
          / (hs.length : ℚ))
    ∧ ((HealthMonitor.calculate_region_health region now hs).status
        = HealthMonitor.HStatus.degraded
      ↔ ((1/2 : ℚ) ≤ ((hs.filter (fun h =>
            decide (h.status = HealthMonitor.HStatus.healthy))).length : ℚ)
          / (hs.length : ℚ)
        ∧ ((hs.filter (fun h =>
            decide (h.status = HealthMonitor.HStatus.healthy))).length : ℚ)
          / (hs.length : ℚ) < 4/5))
    ∧ ((HealthMonitor.calculate_region_health region now hs).status
        = HealthMonitor.HStatus.unhealthy
      ↔ ((hs.filter (fun h =>
            decide (h.status = HealthMonitor.HStatus.healthy))).length : ℚ)
          / (hs.length : ℚ) < 1/2)
    ∧ HealthMonitor.calculate_region_health region now []
      = { region := region, status := HealthMonitor.HStatus.unhealthy,
          healthy_instances := 0, total_instances := 0,
          avg_response_time_ms := 0, last_check := now,
          degraded_reason := some "No instances available" } := by
  obtain ⟨x, xs, rfl⟩ : ∃ x xs, hs = x :: xs := by
    cases hs with
    | nil => exact absurd rfl hne
    | cons x xs => exact ⟨x, xs, rfl⟩
  have hempty : HealthMonitor.calculate_region_health region now []
      = { region := region, status := HealthMonitor.HStatus.unhealthy,
          healthy_instances := 0, total_instances := 0,
          avg_response_time_ms := 0, last_check := now,
          degraded_reason := some "No instances available" } := rfl
  rw [calc_region_status_ite]
  split_ifs with h80 h50
  · have hr : (4/5 : ℚ) ≤ (((x :: xs).filter (fun h =>
        decide (h.status = HealthMonitor.HStatus.healthy))).length : ℚ)
        / (((x :: xs).length : ℕ) : ℚ) := by linarith
    refine ⟨⟨fun _ => hr, fun _ => rfl⟩, ?_, ?_, hempty⟩
    · exact ⟨fun h => absurd h (by decide),
        fun h => absurd h.2 (not_lt.mpr hr)⟩
    · exact ⟨fun h => absurd h (by decide),
        fun h => absurd h (not_lt.mpr (le_trans (by norm_num) hr))⟩
  · have hr1 : (((x :: xs).filter (fun h =>
        decide (h.status = HealthMonitor.HStatus.healthy))).length : ℚ)
        / (((x :: xs).length : ℕ) : ℚ) < 4/5 := by
      push_neg at h80
      linarith
    have hr2 : (1/2 : ℚ) ≤ (((x :: xs).filter (fun h =>
        decide (h.status = HealthMonitor.HStatus.healthy))).length : ℚ)
        / (((x :: xs).length : ℕ) : ℚ) := by linarith
    refine ⟨?_, ⟨fun _ => ⟨hr2, hr1⟩, fun _ => rfl⟩, ?_, hempty⟩
    · exact ⟨fun h => absurd h (by decide),
        fun h => absurd h (not_le.mpr hr1)⟩
    · exact ⟨fun h => absurd h (by decide),
        fun h => absurd h (not_lt.mpr hr2)⟩
  · have hr : (((x :: xs).filter (fun h =>
        decide (h.status = HealthMonitor.HStatus.healthy))).length : ℚ)
        / (((x :: xs).length : ℕ) : ℚ) < 1/2 := by
      push_neg at h50
      linarith
    refine ⟨?_, ?_, ⟨fun _ => hr, fun _ => rfl⟩, hempty⟩
    · exact ⟨fun h => absurd h (by decide),
        fun h => absurd h (not_le.mpr (lt_of_lt_of_le hr (by norm_num)))⟩
    · exact ⟨fun h => absurd h (by decide),
        fun h => absurd h.1 (not_le.mpr hr)⟩

/-- Witness for C6 at a concrete non-empty region: 4 healthy out of
5 probed workers, exactly the 0.80 boundary, which is healthy. -/
theorem C6_region_health_thresholds_witness :
    ((HealthMonitor.calculate_region_health "us-east-1" 0 exHealths).status
        = HealthMonitor.HStatus.healthy
      ↔ (4/5 : ℚ) ≤ ((exHealths.filter (fun h =>
            decide (h.status = HealthMonitor.HStatus.healthy))).length : ℚ)
          / (exHealths.length : ℚ))
    ∧ ((HealthMonitor.calculate_region_health "us-east-1" 0 exHealths).status
        = HealthMonitor.HStatus.degraded
      ↔ ((1/2 : ℚ) ≤ ((exHealths.filter (fun h =>
            decide (h.status = HealthMonitor.HStatus.healthy))).length : ℚ)
          / (exHealths.length : ℚ)
        ∧ ((exHealths.filter (fun h =>
            decide (h.status = HealthMonitor.HStatus.healthy))).length : ℚ)
          / (exHealths.length : ℚ) < 4/5))
    ∧ ((HealthMonitor.calculate_region_health "us-east-1" 0 exHealths).status
        = HealthMonitor.HStatus.unhealthy
      ↔ ((exHealths.filter (fun h =>
            decide (h.status = HealthMonitor.HStatus.healthy))).length : ℚ)
          / (exHealths.length : ℚ) < 1/2)
    ∧ HealthMonitor.calculate_region_health "us-east-1" 0 []
      = { region := "us-east-1", status := HealthMonitor.HStatus.unhealthy,
          healthy_instances := 0, total_instances := 0,
          avg_response_time_ms := 0, last_check := 0,
          degraded_reason := some "No instances available" } :=
  C6_region_health_thresholds "us-east-1" 0 exHealths (by simp [exHealths])

/-- C10.  On every health cycle, the RoutingState row written back by
`_update_routing_health` for a probed worker unconditionally carries
`queue_depth = 0` and `subnet_cidr = "0.0.0.0/0"`: this holds for
every health observation, and the written row does not depend on the
previous contents of the routing table (it is a full `put_item`
overwrite), so any heartbeat-reported queue depth and any registered
subnet CIDR in that row are overwritten. -/
theorem C10_health_write_resets_queue_and_subnet (self_region : String)
    (rtTbl rtTbl' : StateManager.RoutingTable)
    (health : HealthMonitor.InstanceHealth) (now : ℤ) :
    ∃ item, HealthMonitor.update_routing_health self_region rtTbl health now
        health.instance_id = some item
      ∧ item.queue_depth = 0
      ∧ item.subnet_cidr = "0.0.0.0/0"
      ∧ HealthMonitor.update_routing_health self_region rtTbl health now
          health.instance_id
        = HealthMonitor.update_routing_health self_region rtTbl' health now
          health.instance_id := by
  refine ⟨StateManager.RoutingItem.mk health.instance_id self_region
      (pyTrunc (HealthMonitor.base_score_of health)) 0
      (pyTrunc health.response_time_ms) health.status.value now
      "0.0.0.0/0" (now + 3600), ?_, rfl, rfl, ?_⟩
  · unfold HealthMonitor.update_routing_health StateManager.update_routing_state
    rw [if_pos rfl]
  · unfold HealthMonitor.update_routing_health StateManager.update_routing_state
    rw [if_pos rfl, if_pos rfl]

/-- `check_recovery` either keeps the state or moves to RECOVERING. -/
lemma check_recovery_result (cfg : FailoverHandler.Thresholds)
    (s : FailoverHandler.FailoverState) (rh : HealthMonitor.RegionHealth) :
    FailoverHandler.check_recovery cfg s rh = s
    ∨ FailoverHandler.check_recovery cfg s rh = FailoverHandler.FailoverState.recovering := by
  unfold FailoverHandler.check_recovery
  dsimp only
  split_ifs <;> first | exact Or.inl rfl | exact Or.inr rfl

/-- C7.  With sanely ordered thresholds (defaults 0.3 ≤ 0.5 ≤ 0.8), a
tick taken in FAILOVER_ACTIVE that observes a healthy ratio at or
above the recovery threshold moves to RECOVERING; no tick taken in
FAILOVER_ACTIVE ever yields NORMAL; and a tick yields NORMAL only from
NORMAL itself or from RECOVERING.  The tick is a pure function of the
current state and the observed `RegionHealth`: it has no time input,
so there is no time-based decay. -/
theorem C7_recovery_goes_through_recovering (cfg : FailoverHandler.Thresholds)
    (tgt : Bool) (rh : HealthMonitor.RegionHealth)
    (h1 : cfg.unhealthy_threshold ≤ cfg.degraded_threshold)
    (h2 : cfg.degraded_threshold ≤ cfg.recovery_threshold)
    (htot : 0 < rh.total_instances)
    (hr : cfg.recovery_threshold
      ≤ (rh.healthy_instances : ℚ) / (rh.total_instances : ℚ)) :
    FailoverHandler.monitor_tick cfg tgt
        FailoverHandler.FailoverState.failover_active rh
      = FailoverHandler.FailoverState.recovering
    ∧ (∀ (tgt' : Bool) (rh' : HealthMonitor.RegionHealth),
        FailoverHandler.monitor_tick cfg tgt'
          FailoverHandler.FailoverState.failover_active rh'
        ≠ FailoverHandler.FailoverState.normal)
    ∧ (∀ (tgt' : Bool) (s : FailoverHandler.FailoverState)
        (rh' : HealthMonitor.RegionHealth),
        FailoverHandler.monitor_tick cfg tgt' s rh'
          = FailoverHandler.FailoverState.normal →
        s = FailoverHandler.FailoverState.normal
        ∨ s = FailoverHandler.FailoverState.recovering) := by
  refine ⟨?_, ?_, ?_⟩
  · have hne : ¬ rh.total_instances = 0 := by omega
    have heval : FailoverHandler.evaluate_region_health cfg
        FailoverHandler.FailoverState.failover_active rh
        = FailoverHandler.FailoverState.normal := by
      unfold FailoverHandler.evaluate_region_health
      rw [if_neg hne]
      dsimp only
      rw [if_neg (not_lt.mpr (le_trans (le_trans h1 h2) hr)),
        if_neg (not_lt.mpr (le_trans h2 hr)), if_pos hr]
    unfold FailoverHandler.monitor_tick
    rw [heval]
    dsimp only
    rw [if_neg (by decide), if_pos rfl]
    unfold FailoverHandler.check_recovery
    rw [if_neg (by simp)]
    dsimp only
    rw [if_pos htot, if_pos hr]
  · intro tgt' rh' h
    unfold FailoverHandler.monitor_tick at h
    cases heval : FailoverHandler.evaluate_region_health cfg
        FailoverHandler.FailoverState.failover_active rh' <;>
      rw [heval] at h <;> simp_all
    all_goals
      rcases check_recovery_result cfg
          FailoverHandler.FailoverState.failover_active rh' with hc | hc <;>
        simp_all
  · intro tgt' s rh' h
    unfold FailoverHandler.monitor_tick at h
    cases heval : FailoverHandler.evaluate_region_health cfg s rh' <;>
      rw [heval] at h <;> cases s <;> cases tgt' <;> simp_all
    all_goals
      rcases check_recovery_result cfg
          FailoverHandler.FailoverState.failover_active rh' with hc | hc <;>
        simp_all

/-- Witness for C7: the default thresholds, a region of 10 workers
with 9 healthy (ratio 0.9 ≥ 0.8). -/
theorem C7_recovery_goes_through_recovering_witness :
    FailoverHandler.monitor_tick FailoverHandler.defaultThresholds true
        FailoverHandler.FailoverState.failover_active
        ⟨"us-east-1", HealthMonitor.HStatus.healthy, 9, 10, 20, 0, none⟩
      = FailoverHandler.FailoverState.recovering
    ∧ (∀ (tgt' : Bool) (rh' : HealthMonitor.RegionHealth),
        FailoverHandler.monitor_tick FailoverHandler.defaultThresholds tgt'
          FailoverHandler.FailoverState.failover_active rh'
        ≠ FailoverHandler.FailoverState.normal)
    ∧ (∀ (tgt' : Bool) (s : FailoverHandler.FailoverState)
        (rh' : HealthMonitor.RegionHealth),
        FailoverHandler.monitor_tick FailoverHandler.defaultThresholds tgt' s rh'
          = FailoverHandler.FailoverState.normal →
        s = FailoverHandler.FailoverState.normal
        ∨ s = FailoverHandler.FailoverState.recovering) :=
  C7_recovery_goes_through_recovering FailoverHandler.defaultThresholds true
    ⟨"us-east-1", HealthMonitor.HStatus.healthy, 9, 10, 20, 0, none⟩
    (by norm_num [FailoverHandler.defaultThresholds])
    (by norm_num [FailoverHandler.defaultThresholds])
    (by norm_num)
    (by norm_num [FailoverHandler.defaultThresholds])

/-- A decider applied to a state with no high-RPS dwell timer either
refuses or crashes on the timer-start persist. -/
lemma should_scale_up_fresh (cfg : AutoScaler.Config) (now rps : ℚ)
    (count : ℤ) (st : AutoScaler.ScalingState)
    (hhigh : st.high_rps_since = none) :
    AutoScaler.should_scale_up cfg now rps count st = PyResult.ok false
    ∨ AutoScaler.should_scale_up cfg now rps count st = PyResult.attributeError := by
  unfold AutoScaler.should_scale_up
  rw [hhigh]
  dsimp only
  split_ifs <;> first | exact Or.inl rfl | exact Or.inr rfl

/-- A decider applied to a state with no low-RPS dwell timer either
refuses or crashes on the timer-start persist. -/
lemma should_scale_down_fresh (cfg : AutoScaler.Config) (now rps : ℚ)
    (count : ℤ) (st : AutoScaler.ScalingState)
    (hlow : st.low_rps_since = none) :
    AutoScaler.should_scale_down cfg now rps count st = PyResult.ok false
    ∨ AutoScaler.should_scale_down cfg now rps count st = PyResult.attributeError := by
  unfold AutoScaler.should_scale_down
  rw [hlow]
  dsimp only
  split_ifs <;> first | exact Or.inl rfl | exact Or.inr rfl

/-- C8.  The cooldown refusal is the only faithful part of the claim:
under `now - last_scale_time < cooldown` both deciders return `False`.
But the dwell-timer persist raises `AttributeError`
(`update_autoscaling_state` does not exist), `scale_up` and
`scale_down` swallow their own `AttributeError`s and return `False`
without ever stamping `last_scale_time`, and a full `run` tick can
only crash or decide nothing: the autoscaler never performs an action,
so no actions exist to be cooldown-separated. -/
theorem C8_autoscaler_cannot_act (cfg : AutoScaler.Config) :
    (∀ (now rps : ℚ) (count : ℤ) (st : AutoScaler.ScalingState),
      now - st.last_scale_time < cfg.cooldown_period_seconds →
        AutoScaler.should_scale_up cfg now rps count st = PyResult.ok false
        ∧ AutoScaler.should_scale_down cfg now rps count st = PyResult.ok false)
    ∧ (∀ (now rps : ℚ) (count : ℤ) (st : AutoScaler.ScalingState),
        st.high_rps_since = none →
        ¬ cfg.max_instances ≤ count →
        ¬ now - st.last_scale_time < cfg.cooldown_period_seconds →
        cfg.target_rps_per_instance * (count : ℚ) * 1.2 < rps →
        AutoScaler.should_scale_up cfg now rps count st = PyResult.attributeError)
    ∧ (AutoScaler.scale_up = false ∧ AutoScaler.scale_down = false)
    ∧ (∀ now rps : ℚ,
        AutoScaler.run_tick cfg now rps = AutoScaler.TickOutcome.crashed
        ∨ AutoScaler.run_tick cfg now rps = AutoScaler.TickOutcome.no_action) := by
  refine ⟨?_, ?_, ⟨rfl, rfl⟩, ?_⟩
  · intro now rps count st h
    constructor
    · unfold AutoScaler.should_scale_up
      by_cases h1 : cfg.max_instances ≤ count
      · rw [if_pos h1]
      · rw [if_neg h1, if_pos h]
    · unfold AutoScaler.should_scale_down
      by_cases h1 : count ≤ cfg.min_instances
      · rw [if_pos h1]
      · rw [if_neg h1, if_pos h]
  · intro now rps count st hnone h1 h2 h3
    unfold AutoScaler.should_scale_up
    rw [hnone]
    dsimp only
    rw [if_neg h1, if_neg h2, if_pos h3]
  · intro now rps
    unfold AutoScaler.run_tick
    dsimp only
    rcases should_scale_up_fresh cfg now rps 0 AutoScaler.get_scaling_state rfl
      with hup | hup
    · rw [hup]
      rcases should_scale_down_fresh cfg now rps 0 AutoScaler.get_scaling_state rfl
        with hdn | hdn
      · rw [hdn]
        exact Or.inr rfl
      · rw [hdn]
        exact Or.inl rfl
    · rw [hup]
      exact Or.inl rfl

/-- Witness for C8 at concrete inputs: under cooldown (tick at t=100,
last action time 0) both deciders refuse; above threshold with the
fresh state the decider crashes; a concrete tick crashes or decides
nothing. -/
theorem C8_autoscaler_cannot_act_witness :
    ((100 : ℚ) - exScalingState.last_scale_time
        < AutoScaler.defaultConfig.cooldown_period_seconds
      ∧ AutoScaler.should_scale_up AutoScaler.defaultConfig 100 999 3 exScalingState
          = PyResult.ok false
      ∧ AutoScaler.should_scale_down AutoScaler.defaultConfig 100 999 3 exScalingState
          = PyResult.ok false)
    ∧ AutoScaler.should_scale_up AutoScaler.defaultConfig 1000 999 3 exScalingState
        = PyResult.attributeError
    ∧ (AutoScaler.run_tick AutoScaler.defaultConfig 1000 999
          = AutoScaler.TickOutcome.crashed
        ∨ AutoScaler.run_tick AutoScaler.defaultConfig 1000 999
          = AutoScaler.TickOutcome.no_action) := by
  have hcool : (100 : ℚ) - exScalingState.last_scale_time
      < AutoScaler.defaultConfig.cooldown_period_seconds := by
    norm_num [exScalingState, AutoScaler.defaultConfig]
  exact ⟨⟨hcool, (C8_autoscaler_cannot_act AutoScaler.defaultConfig).1
      100 999 3 exScalingState hcool⟩,
    (C8_autoscaler_cannot_act AutoScaler.defaultConfig).2.1 1000 999 3 exScalingState
      rfl (by norm_num [AutoScaler.defaultConfig])
      (by norm_num [exScalingState, AutoScaler.defaultConfig])
      (by norm_num [AutoScaler.defaultConfig]),
    (C8_autoscaler_cannot_act AutoScaler.defaultConfig).2.2.2 1000 999⟩

/-- C9 counterexample.  With no samples in the window, the cleanup
success-rate reader returns `success_rate = 100.0`, not 0. -/
theorem C9_cleanup_rate_empty_cex :
    (MetricsCollector.get_cleanup_success_rate (fun _ => [])).success_rate = 100
    ∧ (MetricsCollector.get_cleanup_success_rate (fun _ => [])).success_rate ≠ 0 := by
  constructor
  · rfl
  · intro h
    rw [show (MetricsCollector.get_cleanup_success_rate
        (fun _ => [])).success_rate = 100 from rfl] at h
    norm_num at h

/-- C9 amended.  With no samples in the queried window, none of the
aggregate readers raises (they are total functions of their inputs);
the model-load reader returns all-zero statistics with an explicit
`count = 0`, the per-region RPS reader returns 0 for every region, and
the average-queue-depth reader returns 0 — but the cleanup
success-rate reader returns `success_rate = 100.0` (with
`total_validations = 0`), not 0. -/
theorem C9_empty_window_readers
    (getM : String → List MetricsCollector.MetricRecord)
    (hempty : ∀ r, getM r = []) (model_pool : String) (mp : Option String) :
    MetricsCollector.get_model_load_stats getM model_pool = ⟨0, 0, 0, 0, 0, 0, 0⟩
    ∧ MetricsCollector.get_cleanup_success_rate getM = ⟨100, 0, 0, 0⟩
    ∧ MetricsCollector.get_cluster_rps mp getM
        = MetricsCollector.regions.map (fun r => (r, 0))
    ∧ MetricsCollector.get_average_queue_depth (getM "us-east-1") = 0 := by
  refine ⟨?_, ?_, ?_, ?_⟩
  · simp [MetricsCollector.get_model_load_stats, MetricsCollector.regions, hempty]
  · simp [MetricsCollector.get_cleanup_success_rate, MetricsCollector.regions, hempty]
  · cases mp <;>
      simp [MetricsCollector.get_cluster_rps, MetricsCollector.regions, hempty]
  · simp [MetricsCollector.get_average_queue_depth, hempty]

/-- Witness for C9 against the all-empty store. -/
theorem C9_empty_window_readers_witness :
    MetricsCollector.get_model_load_stats (fun _ => []) "model-a"
        = ⟨0, 0, 0, 0, 0, 0, 0⟩
    ∧ MetricsCollector.get_cleanup_success_rate (fun _ => []) = ⟨100, 0, 0, 0⟩
    ∧ MetricsCollector.get_cluster_rps none (fun _ => [])
        = MetricsCollector.regions.map (fun r => (r, 0))
    ∧ MetricsCollector.get_average_queue_depth ((fun _ => []) "us-east-1") = 0 :=
  C9_empty_window_readers (fun _ => []) (fun _ => rfl) "model-a" none

end Mrgc
